import Mathlib

/-!
Verification development for the gofilepy repository (a Python client for the
gofile.io file-hosting service).  The Python source is shallowly embedded:
strings are lists of characters, JSON values are an inductive type, Python
exceptions are an inductive type and fallible code returns Except.  Every
definition is translated directly from the corresponding Python function,
with file/line references in the doc comments.
-/

namespace Gofilepy

/-! ## Python string primitives (modelled on List Char) -/

/-- Extend the first component of a split-in-progress with a leading
character. -/
def consHead (c : Char) : List (List Char) → List (List Char)
  | [] => [[c]]
  | h :: t => (c :: h) :: t

/-- Python str.split(sep) for a non-empty separator: splits on non-overlapping
occurrences of sep scanned left to right; always returns a non-empty list.
No call site uses an empty separator (Python raises ValueError there; this
model then never takes the separator branch and returns [s]). -/
def pySplit (sep : List Char) : List Char → List (List Char)
  | [] => [[]]
  | c :: rest =>
    if h : sep ≠ [] ∧ sep.isPrefixOf (c :: rest) then
      [] :: pySplit sep ((c :: rest).drop sep.length)
    else consHead c (pySplit sep rest)
termination_by s => s.length
decreasing_by
  · have hp : sep <+: c :: rest := by
      rw [← List.isPrefixOf_iff_prefix]
      exact h.2
    have hlen := hp.length_le
    have hpos : 0 < sep.length := List.length_pos.mpr h.1
    simp only [List.length_drop]
    simp only [List.length_cons] at hlen ⊢
    omega
  · simp only [List.length_cons]
    omega

/-- Python substring test (the `in` operator on str): scan for a position
where sub is a prefix. -/
def pyContains (sub : List Char) : List Char → Bool
  | [] => sub.isEmpty
  | c :: rest => sub.isPrefixOf (c :: rest) || pyContains sub rest

/-- Python str.rstrip(c) for a single strip character: drop trailing
occurrences of c. -/
def pyRstrip (c : Char) (s : List Char) : List Char :=
  (s.reverse.dropWhile (· == c)).reverse

/-- Python indexing [-1] on the (always non-empty) result of str.split. -/
def pyLast (l : List (List Char)) : List Char :=
  l.getLastD []

/-- Python indexing [0] on the (always non-empty) result of str.split. -/
def pyHead (l : List (List Char)) : List Char :=
  l.headI

/-- os.path.basename on a POSIX path: the part after the last slash. -/
def pyBasename (s : String) : String :=
  String.mk (pyLast (pySplit ['/'] s.data))

/-- os.path.join(a, b) on POSIX for the two-argument form used in cli.py. -/
def pyJoin (a b : String) : String :=
  if b.startsWith "/" then b
  else if a = "" then b
  else if a.endsWith "/" then a ++ b
  else a ++ "/" ++ b

/-! ## JSON values (the structured data returned by response.json()) -/

/-- A parsed JSON value.  Numbers are modelled as integers (every numeric
field the client reads is an integer). -/
inductive Json where
  | null : Json
  | bool (b : Bool) : Json
  | num (n : Int) : Json
  | str (s : String) : Json
  | arr (elems : List Json) : Json
  | obj (fields : List (String × Json)) : Json

/-- Python truthiness of a parsed JSON value. -/
def pyTruthy : Json → Bool
  | .null => false
  | .bool b => b
  | .num n => !(n == 0)
  | .str s => !(s == "")
  | .arr elems => !elems.isEmpty
  | .obj fields => !fields.isEmpty

mutual

/-- Python repr() of a parsed JSON value (strings are modelled without the
escaping repr applies to quote and control characters). -/
def pyRepr : Json → String
  | .null => "None"
  | .bool true => "True"
  | .bool false => "False"
  | .num n => toString n
  | .str s => "'" ++ s ++ "'"
  | .arr elems => "[" ++ pyReprSeq elems ++ "]"
  | .obj fields => "\x7b" ++ pyReprFields fields ++ "\x7d"

/-- Comma-separated repr of list elements. -/
def pyReprSeq : List Json → String
  | [] => ""
  | [v] => pyRepr v
  | v :: rest => pyRepr v ++ ", " ++ pyReprSeq rest

/-- Comma-separated repr of dict entries. -/
def pyReprFields : List (String × Json) → String
  | [] => ""
  | [(k, v)] => "'" ++ k ++ "': " ++ pyRepr v
  | (k, v) :: rest => "'" ++ k ++ "': " ++ pyRepr v ++ ", " ++ pyReprFields rest

end

/-- Python str() of a parsed JSON value: identity on strings, repr-based
otherwise. -/
def pyStr : Json → String
  | .str s => s
  | v => pyRepr v

/-- Python truthiness of an Optional[str] value (None and the empty string
are falsy). -/
def pyTruthyOpt : Option String → Bool
  | none => false
  | some s => !(s == "")

/-- A Python dict of parsed JSON (dicts preserve insertion order, so an
association list is a faithful model; JSON parsing never produces duplicate
keys). -/
abbrev Payload := List (String × Json)

/-- Python dict.get(k) with its None default. -/
def dGet (d : Payload) (k : String) : Json :=
  (d.lookup k).getD .null

/-- Python dict.get(k, default). -/
def dGetD (d : Payload) (k : String) (v : Json) : Json :=
  (d.lookup k).getD v

/-! ## Exceptions -/

/-- The Python exceptions that can cross the boundaries the claims talk
about.  gofileError is the base class GofileError (client.py 17); the three
following constructors are its subclasses (client.py 25-34).
httpStatusError is httpx.HTTPStatusError (raised by raise_for_status),
httpError any other httpx.HTTPError (DNS, TLS, timeouts...). -/
inductive PyExn where
  | gofileError (msg : String)
  | gofileAPIError (msg : String)
  | gofileNetworkError (msg : String)
  | gofileUploadError (msg : String)
  | httpStatusError (code : Nat)
  | httpError (msg : String)
  | osError (msg : String)
  | typeError (msg : String)
  | valueError (msg : String)
deriving DecidableEq

/-- Python exception class name, as recorded by cli._handle_upload_error. -/
def PyExn.className : PyExn → String
  | .gofileError _ => "GofileError"
  | .gofileAPIError _ => "GofileAPIError"
  | .gofileNetworkError _ => "GofileNetworkError"
  | .gofileUploadError _ => "GofileUploadError"
  | .httpStatusError _ => "HTTPStatusError"
  | .httpError _ => "HTTPError"
  | .osError _ => "OSError"
  | .typeError _ => "TypeError"
  | .valueError _ => "ValueError"

/-- Python str() of the exception (its message). -/
def PyExn.message : PyExn → String
  | .gofileError m => m
  | .gofileAPIError m => m
  | .gofileNetworkError m => m
  | .gofileUploadError m => m
  | .httpStatusError code => "HTTP status error " ++ toString code
  | .httpError m => m
  | .osError m => m
  | .typeError m => m
  | .valueError m => m

/-- isinstance(e, GofileAPIError): only the APIError subclass itself. -/
def PyExn.isAPIError : PyExn → Bool
  | .gofileAPIError _ => true
  | _ => false

/-- isinstance(e, (GofileError, httpx.HTTPError, OSError)): the exception
tuple caught by cli.upload_files (cli.py 183) and cli._download_single_file
(cli.py 230). -/
def catchesGofileHttpOs : PyExn → Bool
  | .gofileError _ => true
  | .gofileAPIError _ => true
  | .gofileNetworkError _ => true
  | .gofileUploadError _ => true
  | .httpStatusError _ => true
  | .httpError _ => true
  | .osError _ => true
  | .typeError _ => false
  | .valueError _ => false

/-- isinstance(e, (GofileError, httpx.HTTPError)): the exception tuple caught
by cli.download_files (cli.py 328); note OSError is not included there. -/
def catchesGofileHttp : PyExn → Bool
  | .gofileError _ => true
  | .gofileAPIError _ => true
  | .gofileNetworkError _ => true
  | .gofileUploadError _ => true
  | .httpStatusError _ => true
  | .httpError _ => true
  | .osError _ => false
  | .typeError _ => false
  | .valueError _ => false

/-- Python int() on a parsed JSON value (cli.py 253 and 311 call
int(file_data.get("size", 0))): integers pass through, booleans coerce,
numeric strings parse, anything else raises. -/
def pyInt : Json → Except PyExn Int
  | .num n => .ok n
  | .bool b => .ok (if b then 1 else 0)
  | .str s =>
    match s.toInt? with
    | some n => .ok n
    | none => .error (.valueError ("invalid literal for int() with base 10: " ++ s))
  | .null => .error (.typeError "int() argument must be a string or a number, not NoneType")
  | .arr _ => .error (.typeError "int() argument must be a string or a number, not list")
  | .obj _ => .error (.typeError "int() argument must be a string or a number, not dict")

/-! ## Response normalization: GofileClient._handle_response (client.py 81-104) -/

/-- An httpx.Response as far as _handle_response inspects it: the HTTP
status code and the result of response.json() (none when the body is not
valid JSON, in which case httpx raises ValueError). -/
structure HttpResponse where
  statusCode : Nat
  jsonBody : Option Json

/-- httpx Response.is_success: a 2xx status code. -/
def isSuccessStatus (code : Nat) : Bool :=
  200 ≤ code && code < 300

/-- httpx Response.raise_for_status(): returns the response on a success
status and raises HTTPStatusError otherwise. -/
def raiseForStatus (code : Nat) : Except PyExn Unit :=
  if isSuccessStatus code then .ok () else .error (.httpStatusError code)

/-- Python equality of data.get("status") against the literal string "ok":
true exactly when the value is present and is the string "ok". -/
def isOkStatus : Option Json → Bool
  | some (.str s) => s == "ok"
  | _ => false

/-- GofileClient._handle_response (client.py 81-104): parse the body as JSON
(a parse failure first surfaces the transport status via raise_for_status,
then reports invalid JSON); require status == "ok" (otherwise GofileAPIError
carrying the remote status and data in its message, client.py 95-99);
require the data field to be a dict (client.py 101-103).  A JSON body that
is not a dict makes data.get raise AttributeError, modelled as typeError
here (both are uncaught at every call site). -/
def handle_response (r : HttpResponse) : Except PyExn Payload :=
  match r.jsonBody with
  | none =>
    match raiseForStatus r.statusCode with
    | .error e => .error e
    | .ok _ => .error (.gofileAPIError "Invalid JSON returned by Gofile API")
  | some (.obj kvs) =>
    if isOkStatus (kvs.lookup "status") then
      match kvs.lookup "data" with
      | some (.obj payload) => .ok payload
      | _ => .error (.gofileAPIError "Gofile API returned unexpected payload structure")
    else
      .error (.gofileAPIError
        ("Gofile API Error: " ++ pyStr (dGet kvs "status") ++ " - " ++ pyStr (dGet kvs "data")))
  | some _ => .error (.typeError "object has no attribute get")

/-! ## ProgressFileReader (utils.py 6-27) -/

/-- A simulated filesystem: a map from path to file contents (bytes). -/
abbrev FS := List (String × List Nat)

/-- The argument Python open(..., "rb") receives: either a path string or an
already-open binary file object. -/
inductive OpenArg where
  | path (p : String)
  | handle (contents : List Nat)

/-- Python builtin open(arg, "rb"): succeeds on an existing path, raises
FileNotFoundError (an OSError) on a missing one, and raises TypeError when
handed anything that is not path-like - in particular an already-open
BufferedReader. -/
def pyOpen (fs : FS) : OpenArg → Except PyExn (List Nat)
  | .path p =>
    match fs.lookup p with
    | some contents => .ok contents
    | none => .error (.osError ("No such file or directory: " ++ p))
  | .handle _ =>
    .error (.typeError "expected str, bytes or os.PathLike object, not BufferedReader")

/-- The state of a constructed ProgressFileReader: the byte source obtained
from open(). -/
structure ProgressReader where
  source : List Nat

/-- ProgressFileReader.__init__ (utils.py 11-15): stores open(filename, "rb")
in self._f.  The parameter is annotated str, and open() is applied to it
unconditionally. -/
def progressFileReaderInit (fs : FS) (filename : OpenArg) : Except PyExn ProgressReader :=
  (pyOpen fs filename).map fun contents => ⟨contents⟩

/-- Python file_object.read(size) on a regular binary file: size < 0 reads
everything, otherwise up to size bytes.  Returns (chunk, rest). -/
def fread (remaining : List Nat) (size : Int) : List Nat × List Nat :=
  if size < 0 then (remaining, [])
  else (remaining.take size.toNat, remaining.drop size.toNat)

/-- One ProgressFileReader.read call (utils.py 17-23): read a chunk from the
underlying file and, if the chunk is non-empty, invoke the callback with its
length.  Returns (chunk, rest, callback invocation arguments). -/
def progressRead (remaining : List Nat) (size : Int) : List Nat × List Nat × List Nat :=
  let chunk := (fread remaining size).1
  let rest := (fread remaining size).2
  (chunk, rest, if chunk = [] then [] else [chunk.length])

/-- A whole sequence of ProgressFileReader.read calls with caller-chosen
sizes: returns (final remaining bytes, chunks returned per read, concatenated
callback invocation arguments). -/
def runReads (sizes : List Int) (remaining : List Nat) :
    List Nat × List (List Nat) × List Nat :=
  match sizes with
  | [] => (remaining, [], [])
  | size :: rest =>
    let step := progressRead remaining size
    let next := runReads rest step.2.1
    (next.1, step.1 :: next.2.1, step.2.2 ++ next.2.2)

/-! ## GofileFile (client.py 37-62) -/

/-- The dataclass GofileFile (client.py 37-45). -/
structure GofileFile where
  name : String
  page_link : String
  file_id : String
  parent_folder : String
  raw : Payload

/-- GofileFile.from_data (client.py 47-57): str(data.get(key, "")) for each
promoted field, and the payload itself as raw. -/
def GofileFile.from_data (data : Payload) : GofileFile :=
  { name := pyStr (dGetD data "fileName" (.str ""))
  , page_link := pyStr (dGetD data "downloadPage" (.str ""))
  , file_id := pyStr (dGetD data "fileId" (.str ""))
  , parent_folder := pyStr (dGetD data "parentFolder" (.str ""))
  , raw := data }

/-! ## GofileClient.upload (client.py 156-220) -/

/-- The mutable session state of a GofileClient: self.token and the default
Authorization header of the underlying httpx.Client (client.py 71-79). -/
structure ClientState where
  token : Option String
  authHeader : Option String
deriving DecidableEq

/-- The transport-level outcome of the multipart POST issued by
GofileClient._post_upload: a response, or an httpx fault. -/
inductive TransportOutcome where
  | response (r : HttpResponse)
  | timeout
  | httpFault (msg : String)

/-- GofileClient._post_upload (client.py 204-220): forward the response,
map httpx.TimeoutException to GofileUploadError "Upload timed out" and any
other httpx.HTTPError to GofileUploadError "Upload failed". -/
def postUpload (net : TransportOutcome) : Except PyExn HttpResponse :=
  match net with
  | .response r => .ok r
  | .timeout => .error (.gofileUploadError "Upload timed out")
  | .httpFault _ => .error (.gofileUploadError "Upload failed")

/-- The multipart form fields built by upload (client.py 165-169): token when
self.token is truthy, folderId when the argument is truthy. -/
def buildUploadData (token folderId : Option String) : List (String × String) :=
  (if pyTruthyOpt token then [("token", token.getD "")] else []) ++
  (if pyTruthyOpt folderId then [("folderId", folderId.getD "")] else [])

/-- The file argument of GofileClient.upload: a path string or an open
binary stream carrying an optional name attribute. -/
inductive UploadSource where
  | path (p : String)
  | stream (nameAttr : Option String) (contents : List Nat)

/-- Display-name resolution for the stream branch (client.py 186-190):
getattr(file, "name", "uploaded_file"), reduced to its basename when it
contains a path separator. -/
def streamFileName (nameAttr : Option String) : String :=
  match nameAttr with
  | none => "uploaded_file"
  | some n =>
    if pyContains ['/'] n.data || pyContains ['\\'] n.data then pyBasename n else n

/-- GofileClient.upload (client.py 156-202), with the network modelled as the
predetermined transport outcome of the single POST it performs.  The path
branch (client.py 175-184) opens the file and hands the open handle to
ProgressFileReader; the stream branch posts the stream directly.  The
returned state is the session state after the call. -/
def clientUpload (st : ClientState) (fs : FS) (file : UploadSource)
    (folderId : Option String) (net : TransportOutcome) :
    Except PyExn GofileFile × ClientState :=
  let _data := buildUploadData st.token folderId
  let result : Except PyExn GofileFile :=
    match file with
    | .path p => do
      let _fileName := pyBasename p
      let fileHandle ← pyOpen fs (.path p)
      let _wrapped ← progressFileReaderInit fs (.handle fileHandle)
      let response ← postUpload net
      let payload ← handle_response response
      pure (GofileFile.from_data payload)
    | .stream nameAttr _ => do
      let _fileName := streamFileName nameAttr
      let response ← postUpload net
      let payload ← handle_response response
      pure (GofileFile.from_data payload)
  (result, st)

/-! ## cli.extract_content_id (cli.py 196-206) -/

/-- extract_content_id on character lists: branch 1 handles URLs containing
"gofile.io/d/" (take what follows the last occurrence, cut at the first "?"
and at the first "/"); branch 2 handles any other string containing
"gofile.io" (strip trailing slashes, take the last path segment, cut at the
first "?"); otherwise the input is returned unchanged. -/
def extractContentIdL (u : List Char) : List Char :=
  if pyContains "gofile.io/d/".data u then
    pyHead (pySplit ['/'] (pyHead (pySplit ['?'] (pyLast (pySplit "gofile.io/d/".data u)))))
  else if pyContains "gofile.io".data u then
    pyHead (pySplit ['?'] (pyLast (pySplit ['/'] (pyRstrip '/' u))))
  else u

/-- cli.extract_content_id (cli.py 196-206) on String. -/
def extract_content_id (u : String) : String :=
  String.mk (extractContentIdL u.data)

/-! ## cli upload batch loop (cli.py 111-193) -/

/-- cli._handle_upload_success (cli.py 111-123). -/
def handleUploadSuccess (data : Payload) (filename : String) : Payload :=
  [("file", .str filename), ("status", .str "success"),
   ("downloadPage", dGet data "downloadPage"),
   ("directLink", dGetD data "directLink" (.str "N/A")),
   ("parentFolder", dGet data "parentFolder")]

/-- cli._handle_upload_error (cli.py 126-134). -/
def handleUploadError (filename : String) (e : PyExn) : Payload :=
  [("file", .str filename), ("status", .str "error"),
   ("message", .str e.message), ("errorType", .str e.className)]

/-- The file-not-found record appended by upload_files (cli.py 156-160). -/
def notFoundRec (filePath : String) : Payload :=
  [("file", .str filePath), ("status", .str "error"), ("message", .str "File not found")]

/-- The batch-scoped mutable state threaded through upload_files: the local
target_folder_id, and the client session state (token and default
Authorization header). -/
structure BatchState where
  target : Option String
  token : Option String
  authHeader : Option String
deriving DecidableEq

/-- cli._apply_guest_token (cli.py 137-144): when the payload carries a
truthy guestToken and the client has no (truthy) token yet, adopt it as
client.token and as the Bearer header. -/
def applyGuestToken (token authHeader : Option String) (data : Payload) :
    Option String × Option String :=
  let guest := dGet data "guestToken"
  if pyTruthy guest && !(pyTruthyOpt token) then
    (some (pyStr guest), some ("Bearer " ++ pyStr guest))
  else (token, authHeader)

/-- The single-folder bookkeeping of upload_files (cli.py 175-180): when -s
is set and no target folder id has been fixed yet, capture the payload's
truthy parentFolder as target and apply any guest token. -/
def stepBatchState (toSingle : Bool) (st : BatchState) (data : Payload) : BatchState :=
  if toSingle && st.target == none then
    let parentFolder := dGet data "parentFolder"
    let target := if pyTruthy parentFolder then some (pyStr parentFolder) else st.target
    let upgraded := applyGuestToken st.token st.authHeader data
    ⟨target, upgraded.1, upgraded.2⟩
  else st

/-- The observable shape of one client.upload_file call issued by the batch
loop: the token and folderId multipart form fields it builds (client.py
165-169) and the session Authorization header in effect when it posts. -/
structure UploadCall where
  tokenField : Option String
  folderIdField : Option String
  authHeader : Option String
deriving DecidableEq

/-- The form fields and header of an upload issued from batch state st. -/
def mkUploadCall (st : BatchState) : UploadCall :=
  { tokenField := if pyTruthyOpt st.token then st.token else none
  , folderIdField := if pyTruthyOpt st.target then st.target else none
  , authHeader := st.authHeader }

/-- One input file of the batch: its path, whether os.path.exists holds, and
the outcome of client.upload_file for it (the normalized payload, or the
exception the client stack raised). -/
structure FileIn where
  path : String
  present : Bool
  outcome : Except PyExn Payload

/-- The output of the batch loop: the upload calls issued, the collected
result records (or the exception that aborted the loop - only GofileError,
httpx.HTTPError and OSError are caught per item, cli.py 183), and the final
batch state. -/
structure LoopOut where
  calls : List UploadCall
  results : Except PyExn (List Payload)
  final : BatchState

/-- cli.upload_files (cli.py 147-193): iterate the files; missing files
produce an error record without any upload; each upload carries the current
token and target folder id; in single-folder mode the first capture fixes
the target and may upgrade a guest token; caught exceptions become error
records; anything else aborts the loop. -/
def uploadFilesLoop (toSingle : Bool) (st : BatchState) : List FileIn → LoopOut
  | [] => ⟨[], .ok [], st⟩
  | f :: rest =>
    if f.present then
      let call := mkUploadCall st
      match f.outcome with
      | .ok data =>
        let st1 := stepBatchState toSingle st data
        let next := uploadFilesLoop toSingle st1 rest
        ⟨call :: next.calls,
         next.results.map (handleUploadSuccess data (pyBasename f.path) :: ·),
         next.final⟩
      | .error e =>
        if catchesGofileHttpOs e then
          let next := uploadFilesLoop toSingle st rest
          ⟨call :: next.calls,
           next.results.map (handleUploadError (pyBasename f.path) e :: ·),
           next.final⟩
        else ⟨[call], .error e, st⟩
    else
      let next := uploadFilesLoop toSingle st rest
      ⟨next.calls, next.results.map (notFoundRec f.path :: ·), next.final⟩

/-! ## cli download flow (cli.py 209-338) -/

/-- The behavior of client.download_file for a given (download link, output
path) pair: none models a successful download, some e a raised exception. -/
abbrev DlOracle := String → String → Option PyExn

/-- Python string equality of a JSON value against a string literal, as in
child_data.get("type") != "file". -/
def isStrEq (v : Json) (s : String) : Bool :=
  match v with
  | .str t => t == s
  | _ => false

/-- The success record built by cli._download_single_file (cli.py 224-229). -/
def downloadSuccessRec (fileName outputPath : String) (size : Int) : Payload :=
  [("file", .str fileName), ("status", .str "success"),
   ("path", .str outputPath), ("size", .num size)]

/-- cli._download_single_file (cli.py 209-235): run the download; on success
return the success record; exceptions in (GofileError, httpx.HTTPError,
OSError) become an error record; anything else propagates. -/
def downloadSingleFile (dl : DlOracle) (fileName downloadLink outputPath : String)
    (fileSize : Int) : Except PyExn Payload :=
  match dl downloadLink outputPath with
  | none => .ok (downloadSuccessRec fileName outputPath fileSize)
  | some e =>
    if catchesGofileHttpOs e then .ok (handleUploadError fileName e)
    else .error e

/-- cli._process_file_data (cli.py 238-257): a falsy str(link) short-circuits
into a "No download link" error record; otherwise join the output path,
coerce the size with int() and download. -/
def processFileData (dl : DlOracle) (kvs : Payload) (fileName outputDir : String) :
    Except PyExn Payload :=
  let downloadLink := pyStr (dGetD kvs "link" (.str ""))
  if downloadLink == "" then
    .ok (handleUploadError fileName (.gofileError "No download link"))
  else
    match pyInt (dGetD kvs "size" (.num 0)) with
    | .error e => .error e
    | .ok fileSize =>
      downloadSingleFile dl fileName downloadLink (pyJoin outputDir fileName) fileSize

/-- cli._download_folder_contents (cli.py 260-283): iterate the children in
order; skip non-dict children and children whose type is not "file"; name
each file from its name field or a synthesized file_id; collect one record
per processed child. -/
def downloadFolderContents (dl : DlOracle) (children : List (String × Json))
    (outputDir : String) : Except PyExn (List Payload) :=
  match children with
  | [] => .ok []
  | (childId, childData) :: rest =>
    match childData with
    | .obj kvs =>
      if isStrEq (dGet kvs "type") "file" then
        let fileName := pyStr (dGetD kvs "name" (.str ("file_" ++ childId)))
        match processFileData dl kvs fileName outputDir with
        | .error e => .error e
        | .ok record =>
          match downloadFolderContents dl rest outputDir with
          | .error e => .error e
          | .ok records => .ok (record :: records)
      else downloadFolderContents dl rest outputDir
    | _ => downloadFolderContents dl rest outputDir

/-- The try-block body of cli.download_files (cli.py 300-326), given the
already-normalized contents payload: dispatch on the type field; a type that
is neither "file" nor "folder" raises the base GofileError with message
"Unknown content type: ..." (cli.py 326). -/
def downloadFilesInner (dl : DlOracle) (data : Payload) (outputDir : String) :
    Except PyExn (List Payload) :=
  let contentType := dGet data "type"
  if isStrEq contentType "file" then
    let fileName := pyStr (dGetD data "name" (.str "downloaded_file"))
    let downloadLink := pyStr (dGetD data "link" (.str ""))
    if downloadLink == "" then .error (.gofileError "No download link found in response")
    else
      match pyInt (dGetD data "size" (.num 0)) with
      | .error e => .error e
      | .ok fileSize =>
        match downloadSingleFile dl fileName downloadLink (pyJoin outputDir fileName) fileSize with
        | .error e => .error e
        | .ok record => .ok [record]
  else if isStrEq contentType "folder" then
    match dGetD data "children" (.obj []) with
    | .obj children => downloadFolderContents dl children outputDir
    | _ => .error (.gofileError "Invalid children structure in folder response")
  else
    .error (.gofileError ("Unknown content type: " ++ pyStr contentType))

/-- The error record built by the except clause of download_files
(cli.py 333-338). -/
def downloadFilesErrRec (contentId : String) (e : PyExn) : Payload :=
  [("content_id", .str contentId), ("status", .str "error"),
   ("message", .str e.message), ("errorType", .str e.className)]

/-- cli.download_files (cli.py 286-338), given the outcome of
client.get_contents: run the dispatch; exceptions in (GofileError,
httpx.HTTPError) are converted to a single error record. -/
def downloadFiles (dl : DlOracle) (contents : Except PyExn Payload)
    (contentId outputDir : String) : Except PyExn (List Payload) :=
  match contents with
  | .error e =>
    if catchesGofileHttp e then .ok [downloadFilesErrRec contentId e] else .error e
  | .ok data =>
    match downloadFilesInner dl data outputDir with
    | .ok records => .ok records
    | .error e =>
      if catchesGofileHttp e then .ok [downloadFilesErrRec contentId e] else .error e

/-- A folder child of type "file" with the given name, link and size, as the
contents endpoint returns it. -/
def fileChild (name link : String) (size : Int) : Json :=
  .obj [("type", .str "file"), ("name", .str name), ("link", .str link), ("size", .num size)]

/-! ## Helper lemmas -/

theorem isOkStatus_eq_true_iff (o : Option Json) :
    isOkStatus o = true ↔ o = some (.str "ok") := by
  cases o with
  | none => simp [isOkStatus]
  | some v => cases v <;> simp [isOkStatus]

theorem fread_length (remaining : List Nat) (size : Int) :
    (fread remaining size).1.length + (fread remaining size).2.length
      = remaining.length := by
  unfold fread
  split_ifs with h
  · simp
  · simp only [List.length_take, List.length_drop]
    omega

theorem progressRead_sum (remaining : List Nat) (size : Int) :
    (progressRead remaining size).2.2.sum + (progressRead remaining size).2.1.length
      = remaining.length := by
  have h := fread_length remaining size
  by_cases hc : (fread remaining size).1 = []
  · rw [hc] at h
    simp only [List.length_nil, Nat.zero_add] at h
    simp [progressRead, hc, h]
  · simp [progressRead, hc]
    omega

theorem runReads_events_sum (sizes : List Int) (remaining : List Nat) :
    (runReads sizes remaining).2.2.sum + (runReads sizes remaining).1.length
      = remaining.length := by
  induction sizes generalizing remaining with
  | nil => simp [runReads]
  | cons size rest ih =>
    have hstep := progressRead_sum remaining size
    have hnext := ih (progressRead remaining size).2.1
    simp only [runReads, List.sum_append]
    omega

theorem runReads_events_pos (sizes : List Int) (remaining : List Nat) :
    ∀ e ∈ (runReads sizes remaining).2.2, e ≠ 0 := by
  induction sizes generalizing remaining with
  | nil => simp [runReads]
  | cons size rest ih =>
    intro e he
    simp only [runReads, List.mem_append] at he
    rcases he with he | he
    · by_cases hc : (fread remaining size).1 = []
      · simp [progressRead, hc] at he
      · simp [progressRead, hc] at he
        have hl := List.length_pos.mpr hc
        omega
    · exact ih _ _ he

theorem runReads_events_eq (sizes : List Int) (remaining : List Nat) :
    (runReads sizes remaining).2.2
      = ((runReads sizes remaining).2.1.map List.length).filter (· ≠ 0) := by
  induction sizes generalizing remaining with
  | nil => simp [runReads]
  | cons size rest ih =>
    simp only [runReads, List.map_cons, List.filter_cons]
    rw [← ih (progressRead remaining size).2.1]
    simp only [progressRead]
    by_cases hc : (fread remaining size).1 = []
    · simp [hc]
    · have hpos : (fread remaining size).1.length ≠ 0 := by
        have hl := List.length_pos.mpr hc
        omega
      simp [hc, hpos]

theorem pySplit_ne_nil (sep s : List Char) : pySplit sep s ≠ [] := by
  induction s using pySplit.induct sep with
  | case1 => simp [pySplit]
  | case2 c rest h ih =>
    rw [pySplit]
    simp [h]
  | case3 c rest h ih =>
    rw [pySplit]
    rw [dif_neg h]
    cases hs : pySplit sep rest <;> simp [consHead]

theorem isPrefixOf_single_iff (c a : Char) (l : List Char) :
    List.isPrefixOf [c] (a :: l) = true ↔ c = a := by
  constructor
  · intro h
    have hp : [c] <+: a :: l := by
      rw [← List.isPrefixOf_iff_prefix]
      exact h
    rcases hp with ⟨t, ht⟩
    exact (List.cons_eq_cons.mp ht).1
  · intro h
    subst h
    rw [List.isPrefixOf_iff_prefix]
    exact ⟨l, rfl⟩

theorem pySplit_single_not_mem (c : Char) (s : List Char) :
    ∀ p ∈ pySplit [c] s, c ∉ p := by
  induction s using pySplit.induct [c] with
  | case1 =>
    intro p hp
    simp [pySplit] at hp
    simp [hp]
  | case2 a rest h ih =>
    intro p hp
    rw [pySplit, dif_pos h] at hp
    rcases List.mem_cons.mp hp with h1 | h1
    · simp [h1]
    · exact ih p h1
  | case3 a rest h ih =>
    intro p hp
    rw [pySplit, dif_neg h] at hp
    have hne : c ≠ a := by
      intro hca
      apply h
      refine ⟨by simp, ?_⟩
      exact (isPrefixOf_single_iff c a rest).mpr hca
    rcases hsp : pySplit [c] rest with _ | ⟨h0, t0⟩
    · exact absurd hsp (pySplit_ne_nil [c] rest)
    · rw [hsp] at hp
      simp only [consHead] at hp
      rcases List.mem_cons.mp hp with h1 | h1
      · subst h1
        intro hmem
        rcases List.mem_cons.mp hmem with h2 | h2
        · exact hne h2
        · have := ih h0 (by rw [hsp]; exact List.mem_cons_self h0 t0)
          exact this h2
      · exact ih p (by rw [hsp]; exact List.mem_cons_of_mem h0 h1)

theorem pySplit_headI_sub (sep s : List Char) : pyHead (pySplit sep s) <+: s := by
  induction s using pySplit.induct sep with
  | case1 => simp [pySplit, pyHead]
  | case2 c rest h ih =>
    rw [pySplit, dif_pos h]
    simp [pyHead]
  | case3 c rest h ih =>
    rw [pySplit, dif_neg h]
    rcases hsp : pySplit sep rest with _ | ⟨h0, t0⟩
    · exact absurd hsp (pySplit_ne_nil sep rest)
    · rw [hsp] at ih
      simp only [consHead, pyHead, List.headI] at ih ⊢
      rcases ih with ⟨t, ht⟩
      exact ⟨t, by rw [List.cons_append, ht]⟩

theorem pySplit_single_of_not_mem (c : Char) (s : List Char) (hc : c ∉ s) :
    pySplit [c] s = [s] := by
  induction s with
  | nil => simp [pySplit]
  | cons a rest ih =>
    have hca : c ≠ a := fun h => hc (h ▸ List.mem_cons_self a rest)
    have hcr : c ∉ rest := fun h => hc (List.mem_cons_of_mem a h)
    rw [pySplit]
    rw [dif_neg]
    · rw [ih hcr]
      simp [consHead]
    · intro h
      exact hca ((isPrefixOf_single_iff c a rest).mp h.2)

theorem pyContains_subset (sub s : List Char) (h : pyContains sub s = true) :
    ∀ a ∈ sub, a ∈ s := by
  induction s with
  | nil =>
    intro a ha
    simp [pyContains, List.isEmpty_iff] at h
    simp [h] at ha
  | cons c rest ih =>
    intro a ha
    simp only [pyContains, Bool.or_eq_true] at h
    rcases h with h | h
    · have hp : sub <+: c :: rest := by
        rw [← List.isPrefixOf_iff_prefix]
        exact h
      exact hp.sublist.subset ha
    · exact List.mem_cons_of_mem c (ih h a ha)

theorem dropWhile_beq_of_not_mem (c : Char) (l : List Char) (hc : c ∉ l) :
    l.dropWhile (· == c) = l := by
  cases l with
  | nil => rfl
  | cons y t =>
    have hy : (y == c) = false := by
      simp only [beq_eq_false_iff_ne, ne_eq]
      intro h
      exact hc (h ▸ List.mem_cons_self y t)
    rw [List.dropWhile_cons, hy]
    simp

theorem pyRstrip_of_not_mem (c : Char) (s : List Char) (hc : c ∉ s) :
    pyRstrip c s = s := by
  unfold pyRstrip
  have hrev : c ∉ s.reverse := by
    simp only [List.mem_reverse]
    exact hc
  rw [dropWhile_beq_of_not_mem c s.reverse hrev, List.reverse_reverse]

theorem pyLast_mem_cons (l : List (List Char)) : pyLast l ∈ [] :: l :=
  List.getLastD_mem_cons l []

theorem pyHead_mem (l : List (List Char)) (h : l ≠ []) : pyHead l ∈ l := by
  cases l with
  | nil => exact absurd rfl h
  | cons a t => simp [pyHead]

theorem extract_clean (y : List Char) (h1 : '/' ∉ y) (h2 : '?' ∉ y) :
    extractContentIdL y = y := by
  have hg1 : pyContains "gofile.io/d/".data y = false := by
    cases hg : pyContains "gofile.io/d/".data y
    · rfl
    · exact absurd (pyContains_subset _ y hg '/' (by decide)) h1
  rw [extractContentIdL, if_neg (by simp [hg1])]
  by_cases hg2 : pyContains "gofile.io".data y = true
  · rw [if_pos hg2]
    rw [pyRstrip_of_not_mem '/' y h1]
    rw [pySplit_single_of_not_mem '/' y h1]
    show pyHead (pySplit ['?'] (pyLast [y])) = y
    have hl : pyLast [y] = y := rfl
    rw [hl]
    rw [pySplit_single_of_not_mem '?' y h2]
    rfl
  · rw [if_neg hg2]

theorem extractContentIdL_clean (u : List Char) :
    '/' ∉ extractContentIdL u ∧ '?' ∉ extractContentIdL u ∨ extractContentIdL u = u := by
  by_cases hg1 : pyContains "gofile.io/d/".data u = true
  · left
    rw [extractContentIdL, if_pos hg1]
    set r1 := pyLast (pySplit "gofile.io/d/".data u) with hr1
    set r2 := pyHead (pySplit ['?'] r1) with hr2
    have hq : '?' ∉ r2 := by
      apply pySplit_single_not_mem '?' r1
      exact pyHead_mem _ (pySplit_ne_nil _ _)
    constructor
    · apply pySplit_single_not_mem '/' r2
      exact pyHead_mem _ (pySplit_ne_nil _ _)
    · intro hmem
      have hpfx := pySplit_headI_sub ['/'] r2
      exact hq (hpfx.sublist.subset hmem)
  · by_cases hg2 : pyContains "gofile.io".data u = true
    · left
      rw [extractContentIdL, if_neg hg1, if_pos hg2]
      set m := pyLast (pySplit ['/'] (pyRstrip '/' u)) with hm
      have hs : '/' ∉ m := by
        rcases List.mem_cons.mp (pyLast_mem_cons (pySplit ['/'] (pyRstrip '/' u))) with h | h
        · rw [hm, h]; simp
        · exact pySplit_single_not_mem '/' _ m h
      constructor
      · intro hmem
        have hpfx := pySplit_headI_sub ['?'] m
        exact hs (hpfx.sublist.subset hmem)
      · apply pySplit_single_not_mem '?' m
        exact pyHead_mem _ (pySplit_ne_nil _ _)
    · right
      rw [extractContentIdL, if_neg hg1, if_neg hg2]

theorem extractContentIdL_idem (u : List Char) :
    extractContentIdL (extractContentIdL u) = extractContentIdL u := by
  rcases extractContentIdL_clean u with ⟨h1, h2⟩ | h
  · exact extract_clean _ h1 h2
  · rw [h, h]

theorem uploadFilesLoop_frozen (toSingle : Bool) (F T : String) (hdr : Option String)
    (hF : F ≠ "") (hT : T ≠ "") (files : List FileIn) :
    (∀ call ∈ (uploadFilesLoop toSingle ⟨some F, some T, hdr⟩ files).calls,
        call.folderIdField = some F ∧ call.tokenField = some T ∧ call.authHeader = hdr) ∧
    (uploadFilesLoop toSingle ⟨some F, some T, hdr⟩ files).final = ⟨some F, some T, hdr⟩ := by
  have hTb : (T == "") = false := beq_eq_false_iff_ne.mpr hT
  have hFb : (F == "") = false := beq_eq_false_iff_ne.mpr hF
  have hcall : mkUploadCall ⟨some F, some T, hdr⟩ = ⟨some T, some F, hdr⟩ := by
    simp [mkUploadCall, pyTruthyOpt, hTb, hFb]
  have hstep : ∀ data, stepBatchState toSingle ⟨some F, some T, hdr⟩ data
      = ⟨some F, some T, hdr⟩ := by
    intro data
    have hbeq : ((some F : Option String) == none) = false := rfl
    simp [stepBatchState, hbeq]
  induction files with
  | nil =>
    constructor
    · intro call hc
      simp [uploadFilesLoop] at hc
    · rfl
  | cons f rest ih =>
    rw [uploadFilesLoop]
    by_cases hp : f.present = true
    · rw [if_pos hp]
      cases ho : f.outcome with
      | ok data =>
        dsimp only
        rw [hstep data]
        constructor
        · intro call hc
          rcases List.mem_cons.mp hc with h | h
          · rw [h, hcall]
            exact ⟨rfl, rfl, rfl⟩
          · exact ih.1 call h
        · exact ih.2
      | error e =>
        dsimp only
        by_cases hcau : catchesGofileHttpOs e = true
        · rw [if_pos hcau]
          dsimp only
          constructor
          · intro call hc
            rcases List.mem_cons.mp hc with h | h
            · rw [h, hcall]
              exact ⟨rfl, rfl, rfl⟩
            · exact ih.1 call h
          · exact ih.2
        · rw [if_neg hcau]
          dsimp only
          constructor
          · intro call hc
            rcases List.mem_cons.mp hc with h | h
            · rw [h, hcall]
              exact ⟨rfl, rfl, rfl⟩
            · simp at h
          · rfl
    · rw [if_neg hp]
      dsimp only
      exact ⟨fun call hc => ih.1 call hc, ih.2⟩

/-! ## Claim theorems -/

/-- C5: in single-folder batch mode with no explicit folder id and no
credential, when the first upload's payload carries parentFolder F and
guestToken T (both non-empty), every subsequent upload_file call in the
batch carries folderId F and token T in its form fields and Bearer T as the
session Authorization header, and T is the session credential from then
on. -/
theorem folder_continuity_guest_upgrade
    (firstPath F T : String) (p : Payload) (rest : List FileIn)
    (hF : p.lookup "parentFolder" = some (.str F)) (hFne : F ≠ "")
    (hT : p.lookup "guestToken" = some (.str T)) (hTne : T ≠ "") :
    (∀ call ∈ (uploadFilesLoop true ⟨none, none, none⟩
        (⟨firstPath, true, .ok p⟩ :: rest)).calls.tail,
      call.folderIdField = some F ∧ call.tokenField = some T ∧
        call.authHeader = some ("Bearer " ++ T)) ∧
    (uploadFilesLoop true ⟨none, none, none⟩
        (⟨firstPath, true, .ok p⟩ :: rest)).final.token = some T := by
  have hFb : (F == "") = false := beq_eq_false_iff_ne.mpr hFne
  have hTb : (T == "") = false := beq_eq_false_iff_ne.mpr hTne
  have hstep : stepBatchState true ⟨none, none, none⟩ p
      = ⟨some F, some T, some ("Bearer " ++ T)⟩ := by
    simp [stepBatchState, applyGuestToken, dGet, hF, hT, pyTruthy, pyStr, hFb, hTb,
      pyTruthyOpt]
  have hfrozen := uploadFilesLoop_frozen true F T (some ("Bearer " ++ T)) hFne hTne rest
  rw [uploadFilesLoop]
  dsimp only
  rw [hstep]
  constructor
  · intro call hc
    exact hfrozen.1 call hc
  · have hfin : (uploadFilesLoop true ⟨some F, some T, some ("Bearer " ++ T)⟩ rest).final.token
        = some T := by rw [hfrozen.2]
    exact hfin

/-- Witness for C5: a two-file batch whose first response carries a parent
folder and a guest token. -/
theorem folder_continuity_guest_upgrade_witness :
    (∀ call ∈ (uploadFilesLoop true ⟨none, none, none⟩
        (⟨"a.txt", true, .ok [("parentFolder", Json.str "fld"), ("guestToken", Json.str "tok")]⟩ ::
          [⟨"b.txt", true, .ok []⟩])).calls.tail,
      call.folderIdField = some "fld" ∧ call.tokenField = some "tok" ∧
        call.authHeader = some ("Bearer " ++ "tok")) ∧
    (uploadFilesLoop true ⟨none, none, none⟩
        (⟨"a.txt", true, .ok [("parentFolder", Json.str "fld"), ("guestToken", Json.str "tok")]⟩ ::
          [⟨"b.txt", true, .ok []⟩])).final.token = some "tok" :=
  folder_continuity_guest_upgrade "a.txt" "fld" "tok"
    [("parentFolder", Json.str "fld"), ("guestToken", Json.str "tok")]
    [⟨"b.txt", true, .ok []⟩] rfl (by decide) rfl (by decide)

/-- C6: downloading a folder of three file children where only the second
child's download raises a caught exception (a local I/O error included)
yields exactly three records: success, error, success - the failure is
converted per item and the siblings are unaffected. -/
theorem partial_folder_failure (dl : DlOracle) (outdir : String)
    (id1 id2 id3 n1 n2 n3 L1 L2 L3 : String) (s1 s2 s3 : Int) (e : PyExn)
    (hL1 : L1 ≠ "") (hL2 : L2 ≠ "") (hL3 : L3 ≠ "")
    (h1 : dl L1 (pyJoin outdir n1) = none)
    (h2 : dl L2 (pyJoin outdir n2) = some e)
    (h3 : dl L3 (pyJoin outdir n3) = none)
    (he : catchesGofileHttpOs e = true) :
    downloadFolderContents dl
        [(id1, fileChild n1 L1 s1), (id2, fileChild n2 L2 s2), (id3, fileChild n3 L3 s3)]
        outdir
      = .ok [downloadSuccessRec n1 (pyJoin outdir n1) s1,
             handleUploadError n2 e,
             downloadSuccessRec n3 (pyJoin outdir n3) s3] ∧
    (downloadSuccessRec n1 (pyJoin outdir n1) s1).lookup "status" = some (.str "success") ∧
    (handleUploadError n2 e).lookup "status" = some (.str "error") ∧
    (downloadSuccessRec n3 (pyJoin outdir n3) s3).lookup "status" = some (.str "success") := by
  have hL1b : (L1 == "") = false := beq_eq_false_iff_ne.mpr hL1
  have hL2b : (L2 == "") = false := beq_eq_false_iff_ne.mpr hL2
  have hL3b : (L3 == "") = false := beq_eq_false_iff_ne.mpr hL3
  refine ⟨?_, rfl, rfl, rfl⟩
  simp [downloadFolderContents, processFileData, downloadSingleFile, isStrEq,
    dGet, dGetD, pyStr, pyInt, fileChild, List.lookup, h1, h2, h3, he,
    hL1b, hL2b, hL3b]

/-- Witness for C6: a concrete three-child folder where the second child's
download raises OSError. -/
theorem partial_folder_failure_witness :
    downloadFolderContents
        (fun link _ => if link == "L2" then some (.osError "Errno 13 Permission denied") else none)
        [("c1", fileChild "a.txt" "L1" 10), ("c2", fileChild "b.txt" "L2" 20),
         ("c3", fileChild "c.txt" "L3" 30)] "out"
      = .ok [downloadSuccessRec "a.txt" (pyJoin "out" "a.txt") 10,
             handleUploadError "b.txt" (.osError "Errno 13 Permission denied"),
             downloadSuccessRec "c.txt" (pyJoin "out" "c.txt") 30] :=
  (partial_folder_failure
    (fun link _ => if link == "L2" then some (.osError "Errno 13 Permission denied") else none)
    "out" "c1" "c2" "c3" "a.txt" "b.txt" "c.txt" "L1" "L2" "L3" 10 20 30
    (.osError "Errno 13 Permission denied")
    (by decide) (by decide) (by decide) rfl rfl rfl rfl).1

/-- C7 counterexample: at content type "document" the raised exception is the
base GofileError, not a GofileAPIError, and its message is capitalized
"Unknown content type: document", so the claim's APIError with message
"unknown content type: document" is wrong on both counts. -/
theorem unknown_type_counterexample :
    downloadFilesInner (fun _ _ => none) [("type", Json.str "document")] "out"
      = .error (.gofileError "Unknown content type: document") ∧
    PyExn.isAPIError (.gofileError "Unknown content type: document") = false ∧
    "Unknown content type: document" ≠ "unknown content type: document" :=
  ⟨rfl, rfl, by decide⟩

/-- C7 (amended): a resolved content whose type is neither "file" nor
"folder" makes the dispatch raise the base GofileError with message
"Unknown content type: ..." (cli.py 326), which download_files itself
catches and converts into one error record whose errorType is
"GofileError". -/
theorem unknown_type_gofile_error (dl : DlOracle) (data : Payload)
    (t contentId outputDir : String)
    (ht : data.lookup "type" = some (.str t)) (hf : t ≠ "file") (hd : t ≠ "folder") :
    downloadFilesInner dl data outputDir
      = .error (.gofileError ("Unknown content type: " ++ t)) ∧
    downloadFiles dl (.ok data) contentId outputDir
      = .ok [downloadFilesErrRec contentId (.gofileError ("Unknown content type: " ++ t))] ∧
    (downloadFilesErrRec contentId
        (.gofileError ("Unknown content type: " ++ t))).lookup "errorType"
      = some (.str "GofileError") := by
  have hfb : (t == "file") = false := beq_eq_false_iff_ne.mpr hf
  have hdb : (t == "folder") = false := beq_eq_false_iff_ne.mpr hd
  have hinner : downloadFilesInner dl data outputDir
      = .error (.gofileError ("Unknown content type: " ++ t)) := by
    simp [downloadFilesInner, isStrEq, dGet, ht, pyStr, hfb, hdb]
  refine ⟨hinner, ?_, rfl⟩
  simp [downloadFiles, hinner, catchesGofileHttp]

/-- Witness for C7's amended statement at content type "document". -/
theorem unknown_type_gofile_error_witness :
    downloadFiles (fun _ _ => none) (.ok [("type", Json.str "document")]) "abc" "out"
      = .ok [downloadFilesErrRec "abc" (.gofileError ("Unknown content type: " ++ "document"))] :=
  (unknown_type_gofile_error (fun _ _ => none) [("type", Json.str "document")]
    "document" "abc" "out" rfl (by decide) (by decide)).2.1

/-- C4: extract_content_id is idempotent: both branches produce strings free
of slashes and question marks, and such strings are fixed points of the
extraction. -/
theorem extract_content_id_idem (u : String) :
    extract_content_id (extract_content_id u) = extract_content_id u := by
  unfold extract_content_id
  exact congrArg String.mk (extractContentIdL_idem u.data)

/-- C2: for every response that parses as a JSON object whose top-level
status field is not the literal "ok", _handle_response raises GofileAPIError
whose message carries the remote status and remote data, and never returns a
payload. -/
theorem handle_response_rejects_non_ok (r : HttpResponse) (kvs : Payload)
    (hbody : r.jsonBody = some (.obj kvs))
    (hstatus : kvs.lookup "status" ≠ some (Json.str "ok")) :
    handle_response r = .error (.gofileAPIError
      ("Gofile API Error: " ++ pyStr (dGet kvs "status") ++ " - "
        ++ pyStr (dGet kvs "data"))) := by
  have hok : isOkStatus (kvs.lookup "status") = false := by
    cases h : isOkStatus (kvs.lookup "status")
    · rfl
    · exact absurd ((isOkStatus_eq_true_iff _).mp h) hstatus
  simp [handle_response, hbody, hok]

/-- Witness for C2 at a concrete error envelope. -/
theorem handle_response_rejects_non_ok_witness :
    handle_response ⟨200, some (.obj [("status", Json.str "error-auth")])⟩
      = .error (.gofileAPIError "Gofile API Error: error-auth - None") := by
  have h := handle_response_rejects_non_ok
    ⟨200, some (.obj [("status", Json.str "error-auth")])⟩
    [("status", Json.str "error-auth")] rfl (by simp)
  simpa [dGet, pyStr, pyRepr] using h

/-- C8: when the body fails to parse as JSON, _handle_response surfaces the
transport status first: a non-2xx status raises HTTPStatusError, and only a
2xx status with an unparsable body raises GofileAPIError about invalid
JSON. -/
theorem handle_response_unparsable_body (r : HttpResponse)
    (hbody : r.jsonBody = none) :
    (isSuccessStatus r.statusCode = false →
      handle_response r = .error (.httpStatusError r.statusCode)) ∧
    (isSuccessStatus r.statusCode = true →
      handle_response r = .error (.gofileAPIError "Invalid JSON returned by Gofile API")) := by
  constructor <;> intro h <;> simp [handle_response, hbody, raiseForStatus, h]

/-- Witness for C8 at a 500 and at a 200 with unparsable bodies. -/
theorem handle_response_unparsable_body_witness :
    handle_response ⟨500, none⟩ = .error (.httpStatusError 500) ∧
    handle_response ⟨200, none⟩
      = .error (.gofileAPIError "Invalid JSON returned by Gofile API") :=
  ⟨(handle_response_unparsable_body ⟨500, none⟩ rfl).1 (by decide),
   (handle_response_unparsable_body ⟨200, none⟩ rfl).2 (by decide)⟩

/-- C9: GofileClient.upload leaves the session credential and the default
Authorization header unchanged, for every input, folder id and network
outcome. -/
theorem upload_preserves_session (st : ClientState) (fs : FS) (file : UploadSource)
    (folderId : Option String) (net : TransportOutcome) :
    (clientUpload st fs file folderId net).2 = st := rfl

/-- C10: GofileFile.from_data is a total function of the payload; each of the
four promoted fields is the empty string when missing and the str() coercion
of the value when present, and the raw attribute is the payload unchanged. -/
theorem from_data_fields (data : Payload) :
    (GofileFile.from_data data).raw = data ∧
    ((data.lookup "fileName" = none → (GofileFile.from_data data).name = "") ∧
     ∀ v, data.lookup "fileName" = some v → (GofileFile.from_data data).name = pyStr v) ∧
    ((data.lookup "downloadPage" = none → (GofileFile.from_data data).page_link = "") ∧
     ∀ v, data.lookup "downloadPage" = some v →
       (GofileFile.from_data data).page_link = pyStr v) ∧
    ((data.lookup "fileId" = none → (GofileFile.from_data data).file_id = "") ∧
     ∀ v, data.lookup "fileId" = some v → (GofileFile.from_data data).file_id = pyStr v) ∧
    ((data.lookup "parentFolder" = none → (GofileFile.from_data data).parent_folder = "") ∧
     ∀ v, data.lookup "parentFolder" = some v →
       (GofileFile.from_data data).parent_folder = pyStr v) := by
  refine ⟨rfl, ⟨?_, ?_⟩, ⟨?_, ?_⟩, ⟨?_, ?_⟩, ⟨?_, ?_⟩⟩
  all_goals
    first
    | (intro h; simp [GofileFile.from_data, dGetD, h, pyStr])
    | (intro v h; simp [GofileFile.from_data, dGetD, h])

/-- Witness for C10 at a payload having only a numeric fileId. -/
theorem from_data_fields_witness :
    (GofileFile.from_data [("fileId", Json.num 3)]).raw = [("fileId", Json.num 3)] ∧
    (GofileFile.from_data [("fileId", Json.num 3)]).name = "" ∧
    (GofileFile.from_data [("fileId", Json.num 3)]).file_id = pyStr (Json.num 3) :=
  ⟨(from_data_fields _).1,
   (from_data_fields _).2.1.1 rfl,
   (from_data_fields _).2.2.2.1.2 (Json.num 3) rfl⟩

/-- C1 (code bug): uploading by file path opens the file and hands the open
handle to ProgressFileReader, whose constructor calls open() on it again
(utils.py 12), so the wrapped stream is never constructed: even with the
file present and the network ready to answer success, upload raises
TypeError before any byte is read. -/
theorem upload_path_wrap_type_error :
    (clientUpload ⟨none, none⟩ [("test.bin", [1, 2, 3])] (.path "test.bin") none
        (.response ⟨200, some (.obj [("status", Json.str "ok"),
          ("data", Json.obj [("fileId", Json.str "f1")])])⟩)).1
      = .error (.typeError "expected str, bytes or os.PathLike object, not BufferedReader") :=
  rfl

/-- C3: reading a byte source to EOF through ProgressFileReader with
arbitrary per-call sizes makes the callback arguments sum to exactly the
source length, each argument equal to the length of the chunk returned by
that read, and never zero. -/
theorem progress_accounting (sizes : List Int) (stream : List Nat)
    (heof : (runReads sizes stream).1 = []) :
    (runReads sizes stream).2.2.sum = stream.length ∧
    (∀ e ∈ (runReads sizes stream).2.2, e ≠ 0) ∧
    (runReads sizes stream).2.2
      = ((runReads sizes stream).2.1.map List.length).filter (· ≠ 0) := by
  refine ⟨?_, runReads_events_pos sizes stream, runReads_events_eq sizes stream⟩
  have h := runReads_events_sum sizes stream
  rw [heof] at h
  simpa using h

/-- Witness for C3: three bytes read in chunks of 2, 0 and the rest. -/
theorem progress_accounting_witness :
    (runReads [2, 0, -1] [7, 8, 9]).1 = [] ∧
    (runReads [2, 0, -1] [7, 8, 9]).2.2.sum = 3 :=
  ⟨by decide, (progress_accounting [2, 0, -1] [7, 8, 9] (by decide)).1⟩

end Gofilepy
